import Mathlib

/-!
Shallow embedding of the RTSP-Player stream server (class RTSPStreamer in
server-main.js) together with proofs about the claims of the specification.

The embedding models the single-threaded event-loop server as a pure state
(ServerState) plus a step function over externally triggered events.  Each
method of the RTSPStreamer class that the claims depend on is translated to a
Lean function of the same name.  Side effects (WebSocket sends, process
signals, process spawns, file unlinks, socket closes) are returned as an
explicit list of Output values, in the order the JavaScript code performs
them.  JavaScript Maps become association lists, setTimeout handles become an
explicit set of armed timers, and the storage directory becomes a list of
file paths (lists of path components).
-/

namespace RTSPPlayer

/-! ## String helpers

String predicates are implemented over the underlying character lists so that
they evaluate cheaply inside the kernel.  They model the corresponding
JavaScript string operations used by the server. -/

/-- Character-level model of JavaScript String.prototype.trim restricted to
the common whitespace characters. -/
def isJsSpace (c : Char) : Bool :=
  c == ' ' || c == '\t' || c == '\n' || c == '\r'

/-- Models url.trim() in validateRtspUrl. -/
def jsTrim (s : String) : String :=
  String.mk (((s.data.dropWhile isJsSpace).reverse.dropWhile isJsSpace).reverse)

/-- Models String.prototype.startsWith (and the RegExp anchor-free prefix
tests): p occurs at the start of s. -/
def strHasPre (p s : String) : Bool :=
  p.data.isPrefixOf s.data

/-- Searches for needle as a contiguous block anywhere in the haystack. -/
def subSearch (needle : List Char) : List Char → Bool
  | [] => needle.isEmpty
  | c :: t => needle.isPrefixOf (c :: t) || subSearch needle t

/-- Models an unanchored RegExp literal-substring test: i occurs somewhere in
s. -/
def strHasSub (i s : String) : Bool :=
  subSearch i.data s.data

/-- Models String lower-casing for the case-insensitive regex flags. -/
def strLower (s : String) : String :=
  String.mk (s.data.map Char.toLower)

/-! ## Path model

Paths are lists of components, interpreted as absolute paths rooted at the
application directory.  pathJoin models Node's path.join: split the appended
name on slashes, drop empty and dot components, and resolve dot-dot
components against the stack (clamping at the root, which is the absolute
path behaviour). -/

/-- Splits a character list on the slash character. -/
def splitSlash (acc : List Char) : List Char → List (List Char)
  | [] => [acc.reverse]
  | c :: t => if c == '/' then acc.reverse :: splitSlash [] t else splitSlash (c :: acc) t

/-- The path components of a file name, empty and dot components removed. -/
def pathSegs (s : String) : List String :=
  ((splitSlash [] s.data).map (fun cs => String.mk cs)).filter
    (fun seg => seg != "" && seg != ".")

/-- One normalisation step: a dot-dot component pops the stack, every other
component is pushed. -/
def normStep (stack : List String) (seg : String) : List String :=
  if seg == ".." then stack.dropLast else stack ++ [seg]

/-- Models path.join(dir, name) followed by Node's normalisation, for a
directory that is already in component form. -/
def pathJoin (dir : List String) (name : String) : List String :=
  (dir ++ pathSegs name).foldl normStep []

/-- The HLS storage directory, config.streams.directory =
path.join(appRoot, 'public', 'streams'), in component form. -/
def streamsDir : List String := ["public", "streams"]

/-! ## Association lists

JavaScript Map objects (this.activeStreams, this.wsConnections) are modelled
as association lists: alookup is Map.get, aset is Map.set (replace the
binding if the key is present, append otherwise), aerase is Map.delete. -/

def alookup {β : Type} : List (String × β) → String → Option β
  | [], _ => none
  | (k, v) :: t, key => if k = key then some v else alookup t key

def aset {β : Type} : List (String × β) → String → β → List (String × β)
  | [], key, v => [(key, v)]
  | (k, w) :: t, key, v => if k = key then (key, v) :: t else (k, w) :: aset t key v

def aerase {β : Type} (l : List (String × β)) (key : String) : List (String × β) :=
  l.filter (fun e => e.1 != key)

/-! ## Data model

Only the fields the server code reads are modelled.  The command handle of a
stream is represented by the Boolean hasCommand (the JavaScript code only
tests the handle for truthiness before signalling it); logging-only fields
(ip, userAgent, connectTime) are omitted. -/

/-- One entry of this.wsConnections (the clientInfo object). -/
structure ClientInfo where
  lastPing : Nat
deriving DecidableEq, Repr

/-- One entry of this.activeStreams (the streamInfo object). -/
structure StreamInfo where
  hasCommand : Bool
  connections : List String
  rtspUrl : String
  startTime : Nat
  timeoutId : Option Nat
deriving DecidableEq, Repr

/-- The mutable state of the RTSPStreamer instance: the two Maps, the set of
armed setTimeout forced-kill timers (handle, streamId), a fresh-handle
counter, and the contents of the storage directory tree. -/
structure ServerState where
  activeStreams : List (String × StreamInfo)
  wsConnections : List (String × ClientInfo)
  armedTimers : List (Nat × String)
  nextTimer : Nat
  fsFiles : List (List String)
deriving DecidableEq, Repr

/-- Signals passed to command.kill. -/
inductive Sig
  | term
  | kill
deriving DecidableEq, Repr

/-- Messages the server sends over a WebSocket (the timestamp field that
sendMessage stamps on every payload carries no control information and is
omitted). -/
inductive ServerMsg
  | streamStarted (streamId : String)
  | streamStopped (streamId : String)
  | streamEnded (streamId : String)
  | error (message : String)
  | ping
deriving DecidableEq, Repr

/-- The result of JSON-parsing an inbound WebSocket payload, by the value of
data.type.  A payload that is valid JSON but of unrecognised type is
ClientMsg.other. -/
inductive ClientMsg
  | startStream (rtspUrl : Option String)
  | stopStream (streamId : String)
  | pong
  | other (msgType : String)
deriving DecidableEq, Repr

/-- Externally visible effects, in program order: WebSocket sends that
actually reached an open connection, process signals, process spawns,
ws.close with a status code, ws.terminate, and file deletions. -/
inductive Output
  | send (connId : String) (msg : ServerMsg)
  | kill (streamId : String) (sig : Sig)
  | spawn (streamId rtspUrl : String)
  | closeConn (connId : String) (code : Nat)
  | terminate (connId : String)
  | unlink (path : List String)
deriving DecidableEq, Repr

/-! ## validateRtspUrl -/

/-- Result of validateRtspUrl: either valid:true, or valid:false together
with the specific reason string. -/
inductive ValidationResult
  | ok
  | bad (error : String)
deriving DecidableEq, Repr

/-- The shell and injection characters of the first dangerous pattern in
validateRtspUrl (semicolon, ampersand, pipe, backquote, dollar,
parentheses). -/
def dangerousChar (c : Char) : Bool :=
  c == ';' || c == '&' || c == '|' || c == Char.ofNat 96 || c == '$' ||
  c == '(' || c == ')'

/-- Hostname and protocol of a parsed URL, as read by validateRtspUrl. -/
structure ParsedUrl where
  protocol : String
  hostname : String
deriving DecidableEq, Repr

/-- The suffix of a character list after its last at-sign (the whole list
when no at-sign occurs); strips the userinfo from a URL authority. -/
def afterLastAt (cs : List Char) : List Char :=
  (cs.reverse.takeWhile (fun c => c != '@')).reverse

/-- Models new URL(u) for inputs already known to start with the seven
characters of the rtsp scheme prefix: the authority extends to the first
slash, question mark or hash; the hostname is the authority with userinfo
and port stripped; a non-numeric port makes the constructor throw (none). -/
def parseUrl (u : String) : Option ParsedUrl :=
  let rest := u.data.drop 7
  let auth := rest.takeWhile (fun c => c != '/' && c != '?' && c != '#')
  let hostPort := afterLastAt auth
  let host := hostPort.takeWhile (fun c => c != ':')
  let portDigits := (hostPort.dropWhile (fun c => c != ':')).drop 1
  if portDigits.all Char.isDigit then
    some { protocol := "rtsp:", hostname := String.mk host }
  else
    none

/-- Translation of RTSPStreamer.validateRtspUrl.  The argument is none when
the JavaScript value is missing or not a string (the typeof guard); the empty
string is also falsy and rejected by the same first branch. -/
def validateRtspUrl (url : Option String) : ValidationResult :=
  match url with
  | none => ValidationResult.bad "URL不能为空"
  | some u0 =>
    if u0 = "" then ValidationResult.bad "URL不能为空"
    else
      let u := jsTrim u0
      if !(strHasPre "rtsp://" u) then
        ValidationResult.bad "无效的RTSP URL，必须以 rtsp:// 开头"
      else if u.length > 2048 then
        ValidationResult.bad "URL长度超过限制"
      else if u.data.any dangerousChar || strHasSub ".." u ||
          strHasSub "file://" (strLower u) || strHasSub "/etc/" u ||
          (strLower u).data.contains (Char.ofNat 92) then
        ValidationResult.bad "URL包含非法字符"
      else
        match parseUrl u with
        | none => ValidationResult.bad "无效的URL格式"
        | some parsed =>
          if !(parsed.protocol = "rtsp:" || parsed.protocol = "rtsps:") then
            ValidationResult.bad "只支持 RTSP 和 RTSPS 协议"
          else if parsed.hostname = "" then
            ValidationResult.bad "URL缺少主机名"
          else
            ValidationResult.ok

/-! ## Server operations

Each function mirrors one method of the RTSPStreamer class and returns the
successor state together with the list of produced Output effects. -/

/-- Translation of RTSPStreamer.sendMessage: the payload is delivered only
when the connection is present (readyState OPEN) in this.wsConnections. -/
def sendMessage (s : ServerState) (connId : String) (msg : ServerMsg) : List Output :=
  match alookup s.wsConnections connId with
  | some _ => [Output.send connId msg]
  | none => []

/-- Translation of RTSPStreamer.sendError. -/
def sendError (s : ServerState) (connId : String) (message : String) : List Output :=
  sendMessage s connId (ServerMsg.error message)

/-- Is q a file directly inside the storage directory? (Exactly the files
whose name is returned by readdirSync of config.streams.directory.) -/
def inStreamsDir (q : List String) : Bool :=
  streamsDir.isPrefixOf q && q.length == streamsDir.length + 1

/-- The file name of a path directly inside a directory. -/
def baseName (q : List String) : String :=
  q.getLastD ""

/-- The deletion test of cleanupStream: the loop unlinks the files of the
storage directory whose name starts with the stream id followed by a dot. -/
def cleanupVictim (streamId : String) (q : List String) : Bool :=
  inStreamsDir q && strHasPre (streamId ++ ".") (baseName q)

/-- Translation of RTSPStreamer.cleanupStream: clear the pending forced-kill
timer if one is recorded for the stream, delete the Map entry, then unlink
every file of the storage directory whose name starts with streamId plus a
dot (the file loop; deletion failures are logged and swallowed). -/
def cleanupStream (s : ServerState) (streamId : String) : ServerState × List Output :=
  let timers :=
    match alookup s.activeStreams streamId with
    | some info =>
      match info.timeoutId with
      | some h => s.armedTimers.filter (fun t => t.1 != h)
      | none => s.armedTimers
    | none => s.armedTimers
  let streams := aerase s.activeStreams streamId
  let removed := s.fsFiles.filter (fun q => cleanupVictim streamId q)
  let kept := s.fsFiles.filter (fun q => !(cleanupVictim streamId q))
  ({ s with activeStreams := streams, armedTimers := timers, fsFiles := kept },
   removed.map (fun q => Output.unlink q))

/-- Translation of RTSPStreamer.stopRtspStream.  Object mutation on the
streamInfo held by the Map is modelled by writing the updated record back
with aset at the point of each field assignment.  When the viewer list
becomes empty the code signals SIGTERM, arms the five-second SIGKILL timer,
stores its handle in the streamInfo, and then synchronously calls
cleanupStream before sending streamStopped. -/
def stopRtspStream (s : ServerState) (streamId connId : String) : ServerState × List Output :=
  match alookup s.activeStreams streamId with
  | none => (s, sendError s connId "流不存在")
  | some info =>
    let info1 : StreamInfo :=
      { info with connections := info.connections.filter (fun i => i != connId) }
    let s1 : ServerState := { s with activeStreams := aset s.activeStreams streamId info1 }
    if info1.connections.isEmpty then
      if info1.hasCommand then
        let h := s1.nextTimer
        let info2 : StreamInfo := { info1 with timeoutId := some h }
        let s2 : ServerState := { s1 with
          activeStreams := aset s1.activeStreams streamId info2,
          armedTimers := s1.armedTimers ++ [(h, streamId)],
          nextTimer := h + 1 }
        let c := cleanupStream s2 streamId
        (c.1, Output.kill streamId Sig.term :: c.2 ++
          sendMessage c.1 connId (ServerMsg.streamStopped streamId))
      else
        let c := cleanupStream s1 streamId
        (c.1, c.2 ++ sendMessage c.1 connId (ServerMsg.streamStopped streamId))
    else
      (s1, sendMessage s1 connId (ServerMsg.streamStopped streamId))

/-- Translation of the setTimeout callback armed by stopRtspStream: when it
fires the timer is no longer armed; if the stream is still registered its
command is signalled SIGKILL and cleanupStream runs. -/
def killTimerFire (s : ServerState) (h : Nat) (streamId : String) : ServerState × List Output :=
  let s0 : ServerState := { s with armedTimers := s.armedTimers.filter (fun t => t.1 != h) }
  match alookup s0.activeStreams streamId with
  | some info =>
    let kills := if info.hasCommand then [Output.kill streamId Sig.kill] else []
    let c := cleanupStream s0 streamId
    (c.1, kills ++ c.2)
  | none => (s0, [])

/-- Translation of RTSPStreamer.startRtspStream.  The fresh streamId (from
generateStreamId) and the current time are oracle arguments; spawnOk is false
exactly when the fluent-ffmpeg pipeline construction throws, which lands in
the catch branch.  Note the order: streamStarted is sent directly after
validation, before the process is created. -/
def startRtspStream (s : ServerState) (rtspUrl : Option String)
    (connId streamId : String) (now : Nat) (spawnOk : Bool) : ServerState × List Output :=
  match validateRtspUrl rtspUrl with
  | ValidationResult.bad e => (s, sendError s connId e)
  | ValidationResult.ok =>
    let started := sendMessage s connId (ServerMsg.streamStarted streamId)
    if spawnOk then
      let info : StreamInfo :=
        { hasCommand := true,
          connections := [connId],
          rtspUrl := rtspUrl.getD "",
          startTime := now,
          timeoutId := none }
      ({ s with activeStreams := aset s.activeStreams streamId info },
       started ++ [Output.spawn streamId (rtspUrl.getD "")])
    else
      (s, started ++ sendError s connId "启动转码失败")

/-- Translation of the FFmpeg on-error handler registered in startRtspStream:
report the error to the requesting connection, then cleanupStream. -/
def onFfmpegError (s : ServerState) (streamId connId msg : String) : ServerState × List Output :=
  let errs := sendError s connId ("FFmpeg错误: " ++ msg)
  let c := cleanupStream s streamId
  (c.1, errs ++ c.2)

/-- Translation of the FFmpeg on-end handler registered in startRtspStream. -/
def onFfmpegEnd (s : ServerState) (streamId connId : String) : ServerState × List Output :=
  let outs := sendMessage s connId (ServerMsg.streamEnded streamId)
  let c := cleanupStream s streamId
  (c.1, outs ++ c.2)

/-- Translation of RTSPStreamer.handleWebSocketMessage together with the
try/catch wrapper of the ws message listener.  parsed is none exactly when
JSON.parse throws, in which case the wrapper sends the processing-failure
error and the lastPing update is never reached.  For a parsed message the
lastPing of the connection is refreshed before dispatch on data.type. -/
def handleRawMessage (s : ServerState) (connId : String) (parsed : Option ClientMsg)
    (now : Nat) (freshStreamId : String) (spawnOk : Bool) : ServerState × List Output :=
  match parsed with
  | none => (s, sendError s connId "消息处理失败")
  | some data =>
    let s1 : ServerState :=
      match alookup s.wsConnections connId with
      | some _ => { s with wsConnections := aset s.wsConnections connId { lastPing := now } }
      | none => s
    match data with
    | ClientMsg.startStream url => startRtspStream s1 url connId freshStreamId now spawnOk
    | ClientMsg.stopStream sid => stopRtspStream s1 sid connId
    | ClientMsg.pong => (s1, [])
    | ClientMsg.other _ => (s1, sendError s1 connId "未知消息类型")

/-- One iteration of the forEach loop in handleWebSocketClose: if the stream
still exists and lists the closed connection among its viewers, stop it on
behalf of that connection. -/
def closeStep (connId : String) (acc : ServerState × List Output) (streamId : String) :
    ServerState × List Output :=
  match alookup acc.1.activeStreams streamId with
  | some info =>
    if info.connections.contains connId then
      let r := stopRtspStream acc.1 streamId connId
      (r.1, acc.2 ++ r.2)
    else acc
  | none => acc

/-- Translation of RTSPStreamer.handleWebSocketClose (the ws close listener):
delete the connection entry, then walk the active streams and stop every
stream the connection had joined. -/
def handleWebSocketClose (s : ServerState) (connId : String) : ServerState × List Output :=
  let s1 : ServerState := { s with wsConnections := aerase s.wsConnections connId }
  (s1.activeStreams.map Prod.fst).foldl (closeStep connId) (s1, [])

/-- Translation of the ws error listener registered in setupWebSocket: it
only deletes the connection entry (no stream detach happens here). -/
def wsErrorHandler (s : ServerState) (connId : String) : ServerState × List Output :=
  ({ s with wsConnections := aerase s.wsConnections connId }, [])

/-- Translation of the connection handler in setupWebSocket: a connection
arriving while the Map already holds maxConnections entries is closed with
status 1008; otherwise a clientInfo with lastPing = now is stored. -/
def handleConnection (maxConn : Nat) (s : ServerState) (connId : String) (now : Nat) :
    ServerState × List Output :=
  if s.wsConnections.length ≥ maxConn then
    (s, [Output.closeConn connId 1008])
  else
    ({ s with wsConnections := aset s.wsConnections connId { lastPing := now } }, [])

/-- The staleness test of checkConnections: now minus lastPing exceeds twice
the heartbeat interval (computed in the integers, as JavaScript arithmetic
would). -/
def isStale (hb now : Nat) (ci : ClientInfo) : Bool :=
  decide ((now : Int) - (ci.lastPing : Int) > (hb : Int) * 2)

/-- Translation of RTSPStreamer.checkConnections: every stale connection is
terminated and deleted from the Map, every other connection is sent the
application-level ping. -/
def checkConnections (hb : Nat) (s : ServerState) (now : Nat) : ServerState × List Output :=
  ({ s with wsConnections := s.wsConnections.filter (fun e => !(isStale hb now e.2)) },
   s.wsConnections.flatMap (fun e =>
     if isStale hb now e.2 then [Output.terminate e.1]
     else [Output.send e.1 ServerMsg.ping]))

/-! ## HTTP artifact retrieval -/

/-- Outcome of an HLS route handler; the Boolean flag of the pair returned by
the serve functions records whether the filesystem was accessed at all
(existsSync / sendFile). -/
inductive HttpResult
  | notFound (message : String)
  | fileResponse (path : List String)
deriving DecidableEq, Repr

/-- Translation of RTSPStreamer.serveHLSPlaylist: unknown stream ids are
rejected before any filesystem access; otherwise the playlist path is joined
and served when it exists. -/
def serveHLSPlaylist (s : ServerState) (streamId : String) : HttpResult × Bool :=
  match alookup s.activeStreams streamId with
  | none => (HttpResult.notFound "流不存在", false)
  | some _ =>
    let filePath := pathJoin streamsDir (streamId ++ ".m3u8")
    if s.fsFiles.contains filePath then (HttpResult.fileResponse filePath, true)
    else (HttpResult.notFound "播放列表文件不存在", true)

/-- Translation of RTSPStreamer.serveHLSSegment: the segment route parameter
(after URL decoding by the router) is joined to the storage directory with no
validation whatsoever. -/
def serveHLSSegment (s : ServerState) (streamId segment : String) : HttpResult × Bool :=
  match alookup s.activeStreams streamId with
  | none => (HttpResult.notFound "流不存在", false)
  | some _ =>
    let filePath := pathJoin streamsDir (streamId ++ "-" ++ segment)
    if s.fsFiles.contains filePath then (HttpResult.fileResponse filePath, true)
    else (HttpResult.notFound "分片文件不存在", true)

/-! ## The event system

The Node event loop serialises all callbacks; an execution of the server is a
sequence of externally triggered events, each running one handler to
completion. -/

/-- Static configuration (config.websocket). -/
structure Config where
  maxConnections : Nat
  heartbeatInterval : Nat

/-- The externally triggered events that drive the server. -/
inductive Event
  | connect (connId : String) (now : Nat)
  | clientMessage (connId : String) (parsed : Option ClientMsg) (now : Nat)
      (freshStreamId : String) (spawnOk : Bool)
  | wsClose (connId : String)
  | wsError (connId : String)
  | heartbeat (now : Nat)
  | ffmpegErrorEvt (streamId connId msg : String)
  | ffmpegEndEvt (streamId connId : String)
  | killTimer (h : Nat) (streamId : String)
  | fsWrite (p : List String)

/-- One event-loop turn.  A forced-kill timer callback can only run while its
timer is armed (clearTimeout prevents the callback). -/
def step (cfg : Config) (s : ServerState) : Event → ServerState × List Output
  | Event.connect connId now => handleConnection cfg.maxConnections s connId now
  | Event.clientMessage connId parsed now fid ok => handleRawMessage s connId parsed now fid ok
  | Event.wsClose connId => handleWebSocketClose s connId
  | Event.wsError connId => wsErrorHandler s connId
  | Event.heartbeat now => checkConnections cfg.heartbeatInterval s now
  | Event.ffmpegErrorEvt sid cid m => onFfmpegError s sid cid m
  | Event.ffmpegEndEvt sid cid => onFfmpegEnd s sid cid
  | Event.killTimer h sid =>
    if s.armedTimers.contains (h, sid) then killTimerFire s h sid else (s, [])
  | Event.fsWrite p =>
    ({ s with fsFiles := if s.fsFiles.contains p then s.fsFiles else s.fsFiles ++ [p] }, [])

/-- The state of a freshly constructed RTSPStreamer. -/
def initState : ServerState :=
  { activeStreams := [], wsConnections := [], armedTimers := [], nextTimer := 0, fsFiles := [] }

/-- Runs a sequence of events, discarding outputs. -/
def runEvents (cfg : Config) (s : ServerState) (es : List Event) : ServerState :=
  es.foldl (fun acc e => (step cfg acc e).1) s

/-- The states the server can reach from construction. -/
inductive Reachable (cfg : Config) : ServerState → Prop
  | init : Reachable cfg initState
  | next (s : ServerState) (e : Event) : Reachable cfg s → Reachable cfg (step cfg s e).1

/-! ## Association list lemmas -/

theorem alookup_aset_self {β : Type} (l : List (String × β)) (k : String) (v : β) :
    alookup (aset l k v) k = some v := by
  induction l with
  | nil => simp [aset, alookup]
  | cons e t ih =>
    obtain ⟨a, b⟩ := e
    by_cases h : a = k <;> simp [aset, alookup, h, ih]

theorem alookup_aset_ne {β : Type} (l : List (String × β)) (k q : String) (v : β)
    (hne : q ≠ k) : alookup (aset l k v) q = alookup l q := by
  have hkq : k ≠ q := Ne.symm hne
  induction l with
  | nil => simp [aset, alookup, hkq]
  | cons e t ih =>
    obtain ⟨a, b⟩ := e
    by_cases h : a = k
    · subst h
      simp [aset, alookup, hkq]
    · simp [aset, alookup, h, ih]

theorem alookup_aerase_self {β : Type} (l : List (String × β)) (k : String) :
    alookup (aerase l k) k = none := by
  induction l with
  | nil => simp [aerase, alookup]
  | cons e t ih =>
    obtain ⟨a, b⟩ := e
    by_cases h : a = k
    · simpa [aerase, List.filter_cons, h] using ih
    · simpa [aerase, List.filter_cons, h, alookup] using ih

theorem alookup_aerase_ne {β : Type} (l : List (String × β)) (k q : String)
    (hne : q ≠ k) : alookup (aerase l k) q = alookup l q := by
  induction l with
  | nil => simp [aerase, alookup]
  | cons e t ih =>
    obtain ⟨a, b⟩ := e
    by_cases h : a = k
    · subst h
      simpa [aerase, List.filter_cons, alookup, Ne.symm hne] using ih
    · by_cases hq : a = q
      · simp [aerase, List.filter_cons, alookup, h, hq, hne]
      · simpa [aerase, List.filter_cons, alookup, h, hq] using ih

theorem length_aset_le {β : Type} (l : List (String × β)) (k : String) (v : β) :
    (aset l k v).length ≤ l.length + 1 := by
  induction l with
  | nil => simp [aset]
  | cons e t ih =>
    obtain ⟨a, b⟩ := e
    by_cases h : a = k
    · simp [aset, h]
    · simp only [aset, if_neg h, List.length_cons]
      omega

theorem length_aset_of_lookup {β : Type} (l : List (String × β)) (k : String) (v w : β)
    (h : alookup l k = some w) : (aset l k v).length = l.length := by
  induction l with
  | nil => simp [alookup] at h
  | cons e t ih =>
    obtain ⟨a, b⟩ := e
    by_cases ha : a = k
    · simp [aset, ha]
    · simp [alookup, ha] at h
      simp [aset, ha, ih h]

theorem length_aerase_le {β : Type} (l : List (String × β)) (k : String) :
    (aerase l k).length ≤ l.length :=
  List.length_filter_le _ _

theorem alookup_key_mem {β : Type} (l : List (String × β)) (k : String) (v : β)
    (h : alookup l k = some v) : k ∈ l.map Prod.fst := by
  induction l with
  | nil => simp [alookup] at h
  | cons e t ih =>
    obtain ⟨a, b⟩ := e
    by_cases ha : a = k
    · simp [ha]
    · simp [alookup, ha] at h
      simp [ih h]

theorem alookup_eq_none_of_not_mem {β : Type} (l : List (String × β)) (k : String)
    (h : k ∉ l.map Prod.fst) : alookup l k = none := by
  induction l with
  | nil => rfl
  | cons e t ih =>
    obtain ⟨a, b⟩ := e
    have hak : ¬ a = k := by
      intro hh
      exact h (by simp [hh])
    have ht : k ∉ t.map Prod.fst := by
      intro hh
      exact h (by simp [hh])
    simp [alookup, hak, ih ht]

theorem alookup_filter_keep {β : Type} (p : String × β → Bool) (l : List (String × β))
    (k : String) (v : β) (h : alookup l k = some v) (hp : p (k, v) = true) :
    alookup (l.filter p) k = some v := by
  induction l with
  | nil => simp [alookup] at h
  | cons e t ih =>
    obtain ⟨a, b⟩ := e
    by_cases ha : a = k
    · subst ha
      simp [alookup] at h
      subst h
      simp [List.filter, hp, alookup]
    · simp [alookup, ha] at h
      cases hpe : p (a, b) <;> simp [List.filter, hpe, alookup, ha, ih h]

theorem alookup_filter_drop {β : Type} (p : String × β → Bool) (l : List (String × β))
    (k : String) (v : β) (hnd : (l.map Prod.fst).Nodup)
    (h : alookup l k = some v) (hp : p (k, v) = false) :
    alookup (l.filter p) k = none := by
  induction l with
  | nil => simp [alookup] at h
  | cons e t ih =>
    obtain ⟨a, b⟩ := e
    rw [List.map_cons, List.nodup_cons] at hnd
    by_cases ha : a = k
    · subst ha
      simp [alookup] at h
      subst h
      have hnone : alookup (t.filter p) a = none := by
        apply alookup_eq_none_of_not_mem
        intro hmem
        have hsub : List.map Prod.fst (t.filter p) ⊆ List.map Prod.fst t :=
          List.map_subset Prod.fst (List.filter_subset' t)
        exact hnd.1 (hsub hmem)
      simp [List.filter_cons, hp, hnone]
    · simp [alookup, ha] at h
      cases hpe : p (a, b) <;>
        simp [List.filter_cons, hpe, alookup, ha, ih hnd.2 h]

/-! ## Projection lemmas for the server operations -/

theorem alookup_pair_mem {β : Type} (l : List (String × β)) (k : String) (v : β)
    (h : alookup l k = some v) : (k, v) ∈ l := by
  induction l with
  | nil => simp [alookup] at h
  | cons e t ih =>
    obtain ⟨a, b⟩ := e
    by_cases ha : a = k
    · subst ha
      simp [alookup] at h
      simp [h]
    · simp [alookup, ha] at h
      simp [ih h]

theorem cleanup_ws (s : ServerState) (sid : String) :
    (cleanupStream s sid).1.wsConnections = s.wsConnections := rfl

theorem cleanup_streams (s : ServerState) (sid : String) :
    (cleanupStream s sid).1.activeStreams = aerase s.activeStreams sid := rfl

theorem stop_ws (s : ServerState) (sid c : String) :
    (stopRtspStream s sid c).1.wsConnections = s.wsConnections := by
  unfold stopRtspStream
  cases h : alookup s.activeStreams sid with
  | none => rfl
  | some info =>
    dsimp only
    split
    · split <;> rfl
    · rfl

theorem start_ws (s : ServerState) (u : Option String) (c sid : String) (now : Nat) (ok : Bool) :
    (startRtspStream s u c sid now ok).1.wsConnections = s.wsConnections := by
  unfold startRtspStream
  cases validateRtspUrl u with
  | bad e => rfl
  | ok =>
    dsimp only
    split <;> rfl

theorem killTimerFire_ws (s : ServerState) (h : Nat) (sid : String) :
    (killTimerFire s h sid).1.wsConnections = s.wsConnections := by
  unfold killTimerFire
  dsimp only
  split <;> rfl

theorem ffmpegError_ws (s : ServerState) (sid c m : String) :
    (onFfmpegError s sid c m).1.wsConnections = s.wsConnections := rfl

theorem ffmpegEnd_ws (s : ServerState) (sid c : String) :
    (onFfmpegEnd s sid c).1.wsConnections = s.wsConnections := rfl

theorem closeStep_ws (c : String) (acc : ServerState × List Output) (k : String) :
    (closeStep c acc k).1.wsConnections = acc.1.wsConnections := by
  unfold closeStep
  split
  · split
    · exact stop_ws acc.1 k c
    · rfl
  · rfl

theorem closeFold_ws (c : String) (keys : List String) (acc : ServerState × List Output) :
    ((keys.foldl (closeStep c) acc).1).wsConnections = acc.1.wsConnections := by
  induction keys generalizing acc with
  | nil => rfl
  | cons k t ih => rw [List.foldl_cons, ih, closeStep_ws]

theorem close_ws (s : ServerState) (c : String) :
    (handleWebSocketClose s c).1.wsConnections = aerase s.wsConnections c := by
  unfold handleWebSocketClose
  rw [closeFold_ws]

theorem msg_ws_len (s : ServerState) (cid : String) (p : Option ClientMsg)
    (now : Nat) (fid : String) (ok : Bool) :
    (handleRawMessage s cid p now fid ok).1.wsConnections.length = s.wsConnections.length := by
  cases p with
  | none => rfl
  | some data =>
    unfold handleRawMessage
    cases hci : alookup s.wsConnections cid with
    | none =>
      cases data with
      | startStream url => rw [start_ws]
      | stopStream sid2 => rw [stop_ws]
      | pong => rfl
      | other t => rfl
    | some ci =>
      have hlen := length_aset_of_lookup s.wsConnections cid
        ({ lastPing := now } : ClientInfo) ci hci
      cases data with
      | startStream url =>
        rw [start_ws]
        exact hlen
      | stopStream sid2 =>
        rw [stop_ws]
        exact hlen
      | pong => exact hlen
      | other t => exact hlen

theorem connect_len (m : Nat) (s : ServerState) (cid : String) (now : Nat)
    (h : s.wsConnections.length ≤ m) :
    (handleConnection m s cid now).1.wsConnections.length ≤ m := by
  unfold handleConnection
  split
  · exact h
  · rename_i hge
    have hle := length_aset_le s.wsConnections cid ({ lastPing := now } : ClientInfo)
    have hlt : s.wsConnections.length < m := Nat.lt_of_not_le hge
    calc (aset s.wsConnections cid { lastPing := now }).length
        ≤ s.wsConnections.length + 1 := hle
      _ ≤ m := hlt

theorem step_ws_le (cfg : Config) (s : ServerState) (e : Event)
    (h : s.wsConnections.length ≤ cfg.maxConnections) :
    (step cfg s e).1.wsConnections.length ≤ cfg.maxConnections := by
  cases e with
  | connect cid now => exact connect_len cfg.maxConnections s cid now h
  | clientMessage cid p now fid ok =>
    show (handleRawMessage s cid p now fid ok).1.wsConnections.length ≤ cfg.maxConnections
    rw [msg_ws_len]
    exact h
  | wsClose cid =>
    show (handleWebSocketClose s cid).1.wsConnections.length ≤ cfg.maxConnections
    rw [close_ws]
    exact Nat.le_trans (length_aerase_le s.wsConnections cid) h
  | wsError cid =>
    exact Nat.le_trans (length_aerase_le s.wsConnections cid) h
  | heartbeat now =>
    exact Nat.le_trans (List.length_filter_le _ s.wsConnections) h
  | ffmpegErrorEvt sid cid m =>
    show (onFfmpegError s sid cid m).1.wsConnections.length ≤ cfg.maxConnections
    rw [ffmpegError_ws]
    exact h
  | ffmpegEndEvt sid cid =>
    show (onFfmpegEnd s sid cid).1.wsConnections.length ≤ cfg.maxConnections
    rw [ffmpegEnd_ws]
    exact h
  | killTimer ht sid =>
    show (if s.armedTimers.contains (ht, sid) then killTimerFire s ht sid
      else (s, [])).1.wsConnections.length ≤ cfg.maxConnections
    split
    · rw [killTimerFire_ws]
      exact h
    · exact h
  | fsWrite p => exact h

theorem stop_streams_lookup_ne (s : ServerState) (k c q : String) (hne : q ≠ k) :
    alookup (stopRtspStream s k c).1.activeStreams q = alookup s.activeStreams q := by
  unfold stopRtspStream
  cases h : alookup s.activeStreams k with
  | none => rfl
  | some info =>
    dsimp only
    split
    · split
      · rw [cleanup_streams]
        show alookup (aerase (aset (aset s.activeStreams k _) k _) k) q = _
        rw [alookup_aerase_ne _ _ _ hne, alookup_aset_ne _ _ _ _ hne,
          alookup_aset_ne _ _ _ _ hne]
      · rw [cleanup_streams]
        show alookup (aerase (aset s.activeStreams k _) k) q = _
        rw [alookup_aerase_ne _ _ _ hne, alookup_aset_ne _ _ _ _ hne]
    · exact alookup_aset_ne _ _ _ _ hne

theorem stop_streams_lookup_self (s : ServerState) (k c : String) :
    alookup (stopRtspStream s k c).1.activeStreams k = none ∨
    ∃ info, alookup (stopRtspStream s k c).1.activeStreams k = some info ∧
      c ∉ info.connections := by
  unfold stopRtspStream
  cases h : alookup s.activeStreams k with
  | none =>
    left
    exact h
  | some info =>
    dsimp only
    split
    · split
      · left
        rw [cleanup_streams]
        exact alookup_aerase_self _ _
      · left
        rw [cleanup_streams]
        exact alookup_aerase_self _ _
    · right
      refine ⟨_, alookup_aset_self _ _ _, ?_⟩
      simp

theorem closeStep_lookup_ne (c : String) (acc : ServerState × List Output) (k q : String)
    (hne : q ≠ k) :
    alookup (closeStep c acc k).1.activeStreams q = alookup acc.1.activeStreams q := by
  unfold closeStep
  split
  · split
    · exact stop_streams_lookup_ne acc.1 k c q hne
    · rfl
  · rfl

theorem closeFold_detach (c : String) (keys : List String) :
    ∀ acc : ServerState × List Output,
      (∀ sid info, alookup acc.1.activeStreams sid = some info →
        sid ∈ keys ∨ c ∉ info.connections) →
      ∀ sid info,
        alookup ((keys.foldl (closeStep c) acc).1).activeStreams sid = some info →
        c ∉ info.connections := by
  induction keys with
  | nil =>
    intro acc H sid info h
    rcases H sid info h with h1 | h2
    · cases h1
    · exact h2
  | cons k t ih =>
    intro acc H sid info h
    rw [List.foldl_cons] at h
    refine ih (closeStep c acc k) ?_ sid info h
    intro sid2 info2 h2
    by_cases hk : sid2 = k
    · subst hk
      right
      unfold closeStep at h2
      cases hacc : alookup acc.1.activeStreams sid2 with
      | none =>
        rw [hacc] at h2
        dsimp only at h2
        rw [hacc] at h2
        cases h2
      | some info0 =>
        rw [hacc] at h2
        dsimp only at h2
        by_cases hcon : info0.connections.contains c
        · rw [if_pos hcon] at h2
          rcases stop_streams_lookup_self acc.1 sid2 c with hn | ⟨info3, hl, hni⟩
          · rw [hn] at h2
            cases h2
          · rw [hl] at h2
            cases h2
            exact hni
        · rw [if_neg hcon] at h2
          rw [hacc] at h2
          cases h2
          intro hmem
          exact hcon (by simpa using hmem)
    · rw [closeStep_lookup_ne c acc k sid2 hk] at h2
      rcases H sid2 info2 h2 with h3 | h4
      · rcases List.mem_cons.mp h3 with h5 | h6
        · exact absurd h5 hk
        · exact Or.inl h6
      · exact Or.inr h4

/-! ## Claims -/

/-- C1 scenario: one registered stream with a running command and a single
viewer, no timer armed yet. -/
def c1State : ServerState :=
  { activeStreams := [("stream_1",
      { hasCommand := true, connections := ["c1"], rtspUrl := "rtsp://cam.local/live",
        startTime := 0, timeoutId := none })],
    wsConnections := [("c1", { lastPing := 0 })],
    armedTimers := [], nextTimer := 0, fsFiles := [] }

/-- C1: the claim says that after the last viewer detaches and SIGTERM is
sent, a SIGKILL follows when no exit confirmation arrives within the
five-second grace window.  In the code the unconditional synchronous
cleanupStream call at the end of stopRtspStream clears the freshly armed
forced-kill timer and deletes the registry entry, so the timer callback can
never run: the stop transition emits exactly one SIGTERM and the
streamStopped message, leaves no armed timer and no registry entry, and every
later forced-kill timer event for this stream is a no-op — SIGKILL is never
issued, no matter how much time passes. -/
theorem c1_sigkill_never_fires :
    (stopRtspStream c1State "stream_1" "c1").2 =
      [Output.kill "stream_1" Sig.term,
       Output.send "c1" (ServerMsg.streamStopped "stream_1")] ∧
    (stopRtspStream c1State "stream_1" "c1").1.armedTimers = [] ∧
    alookup (stopRtspStream c1State "stream_1" "c1").1.activeStreams "stream_1" = none ∧
    ∀ (h : Nat) (cfg : Config),
      step cfg (stopRtspStream c1State "stream_1" "c1").1 (Event.killTimer h "stream_1") =
        ((stopRtspStream c1State "stream_1" "c1").1, []) := by
  have hs : (stopRtspStream c1State "stream_1" "c1").1 =
      { activeStreams := [], wsConnections := [("c1", { lastPing := 0 })],
        armedTimers := [], nextTimer := 1, fsFiles := [] } := by decide
  refine ⟨by decide, by decide, by decide, ?_⟩
  intro h cfg
  rw [hs]
  rfl

/-- C2 scenario: a registered stream whose storage directory holds the
playlist stream_1.m3u8 and the segment file stream_10.ts (the stream id
followed by a sequence number, as the HLS muxer names segments). -/
def c2State : ServerState :=
  { activeStreams := [("stream_1",
      { hasCommand := true, connections := [], rtspUrl := "rtsp://cam.local/live",
        startTime := 0, timeoutId := none })],
    wsConnections := [], armedTimers := [], nextTimer := 0,
    fsFiles := [["public", "streams", "stream_1.m3u8"],
                ["public", "streams", "stream_10.ts"]] }

/-- C2 counterexample: the claim says purge deletes every storage file whose
name is prefixed by the session id, so that no artifact of the session
remains.  The file stream_10.ts is in the storage directory and its name is
prefixed by the session id stream_1, yet after cleanupStream it is the one
file still on disk: the code only deletes names prefixed by the id followed
by a dot. -/
theorem c2_cleanup_counterexample :
    inStreamsDir ["public", "streams", "stream_10.ts"] = true ∧
    strHasPre "stream_1" (baseName ["public", "streams", "stream_10.ts"]) = true ∧
    ["public", "streams", "stream_10.ts"] ∈ c2State.fsFiles ∧
    (cleanupStream c2State "stream_1").1.fsFiles =
      [["public", "streams", "stream_10.ts"]] := by
  decide

/-- C2 amended: cleanupStream deletes (best-effort) exactly the files of the
storage directory whose name is prefixed by the session id followed by a
dot; a storage file whose name extends the session id in any other way (for
example a segment file stream_10.ts or stream_1-0.ts) survives session
cleanup and is left to the age-based sweep. -/
theorem c2_cleanup_deletes_dot_prefixed (s : ServerState) (sid : String) (q : List String) :
    q ∈ (cleanupStream s sid).1.fsFiles ↔
      q ∈ s.fsFiles ∧
        ¬(inStreamsDir q = true ∧ strHasPre (sid ++ ".") (baseName q) = true) := by
  show q ∈ s.fsFiles.filter (fun q2 => !(cleanupVictim sid q2)) ↔ _
  rw [List.mem_filter]
  simp only [cleanupVictim, Bool.not_eq_true', Bool.and_eq_true, not_and]
  constructor
  · rintro ⟨hq, hb⟩
    refine ⟨hq, fun h1 h2 => ?_⟩
    rw [h1, h2] at hb
    cases hb
  · rintro ⟨hq, hn⟩
    refine ⟨hq, ?_⟩
    cases h1 : inStreamsDir q with
    | false => simp
    | true =>
      cases h2 : strHasPre (sid ++ ".") (baseName q) with
      | false => simp
      | true => exact absurd h2 (by simpa using hn h1)

/-- C3 scenario: a registered stream, and a filesystem on which the path
etc/passwd (outside the storage directory) exists. -/
def c3State : ServerState :=
  { activeStreams := [("stream_1",
      { hasCommand := true, connections := ["c1"], rtspUrl := "rtsp://cam.local/live",
        startTime := 0, timeoutId := none })],
    wsConnections := [("c1", { lastPing := 0 })],
    armedTimers := [], nextTimer := 0,
    fsFiles := [["etc", "passwd"], ["public", "streams", "stream_1.m3u8"]] }

/-- C3: the claim says the segment token is validated as a safe filename
component before being joined to the storage directory, so no request can
serve a file outside that directory.  serveHLSSegment performs no validation
at all: for the live stream stream_1 the dot-dot token below joins and
normalises to the path etc/passwd, which is not under the storage directory,
and the file is served. -/
theorem c3_segment_traversal_served :
    serveHLSSegment c3State "stream_1" "../../../../etc/passwd" =
      (HttpResult.fileResponse ["etc", "passwd"], true) ∧
    streamsDir.isPrefixOf ["etc", "passwd"] = false := by
  decide

/-- C4: a playlist or segment request whose stream id is not in the registry
is answered not-found with the stream-missing message, and the filesystem is
not accessed (the access flag of the serve functions stays false), no matter
what files exist on disk. -/
theorem c4_unknown_stream_not_found (s : ServerState) (sid seg : String)
    (h : alookup s.activeStreams sid = none) :
    serveHLSPlaylist s sid = (HttpResult.notFound "流不存在", false) ∧
    serveHLSSegment s sid seg = (HttpResult.notFound "流不存在", false) := by
  unfold serveHLSPlaylist serveHLSSegment
  rw [h]
  exact ⟨rfl, rfl⟩

/-- C4 witness scenario: the registry is empty while matching artifact files
are still on disk. -/
def c4State : ServerState :=
  { activeStreams := [], wsConnections := [], armedTimers := [], nextTimer := 0,
    fsFiles := [["public", "streams", "stream_9.m3u8"],
                ["public", "streams", "stream_9-0.ts"]] }

/-- C4 witness: concrete instance of the not-found behaviour with stale files
on disk. -/
theorem c4_unknown_stream_not_found_witness :
    serveHLSPlaylist c4State "stream_9" = (HttpResult.notFound "流不存在", false) ∧
    serveHLSSegment c4State "stream_9" "0.ts" = (HttpResult.notFound "流不存在", false) :=
  c4_unknown_stream_not_found c4State "stream_9" "0.ts" (by decide)

/-- C5 configuration for the counterexample run. -/
def c5Cfg : Config := { maxConnections := 100, heartbeatInterval := 30000 }

/-- C5 counterexample run: a connection is admitted, starts a stream, and
then suffers a transport error. -/
def c5Events : List Event :=
  [Event.connect "c1" 0,
   Event.clientMessage "c1"
     (some (ClientMsg.startStream (some "rtsp://cam.local/live"))) 1 "s1" true,
   Event.wsError "c1"]

/-- C5 counterexample: the claim says a connection destroyed for any cause is
removed from the viewer set of every session, and no reachable state holds a
destroyed connection's viewer reference.  After the reachable run below the
connection c1 has been destroyed by the transport-error handler (it is gone
from the connection table), yet it still sits in the viewer set of session
s1: the error handler only deletes the table entry and never detaches the
connection from its sessions. -/
theorem c5_error_leaves_viewer_ref :
    alookup (runEvents c5Cfg initState c5Events).wsConnections "c1" = none ∧
    alookup (runEvents c5Cfg initState c5Events).activeStreams "s1" =
      some { hasCommand := true, connections := ["c1"], rtspUrl := "rtsp://cam.local/live",
             startTime := 1, timeoutId := none } := by
  decide

/-- C5 amended: only the transport-close handler detaches the connection:
after handleWebSocketClose no session in the registry still lists the closed
connection among its viewers (cascading into stream termination where it was
the last viewer), while the transport-error handler removes only the
connection-table entry and leaves every session's viewer set untouched, so
viewer references survive until the transport's close event also fires. -/
theorem c5_close_detaches_error_does_not (s : ServerState) (c : String) :
    (∀ sid info,
      alookup (handleWebSocketClose s c).1.activeStreams sid = some info →
      c ∉ info.connections) ∧
    (wsErrorHandler s c).1.activeStreams = s.activeStreams := by
  constructor
  · intro sid info h
    unfold handleWebSocketClose at h
    exact closeFold_detach c _ _
      (fun sid2 info2 h2 => Or.inl (alookup_key_mem _ _ _ h2)) sid info h
  · rfl

/-- C5 witness scenario: one session with two viewers. -/
def c5WitnessState : ServerState :=
  { activeStreams := [("s1",
      { hasCommand := true, connections := ["c1", "c2"], rtspUrl := "rtsp://cam.local/live",
        startTime := 0, timeoutId := none })],
    wsConnections := [("c1", { lastPing := 0 }), ("c2", { lastPing := 0 })],
    armedTimers := [], nextTimer := 0, fsFiles := [] }

/-- The viewer record of session s1 after c1 has closed. -/
def c5AfterInfo : StreamInfo :=
  { hasCommand := true, connections := ["c2"], rtspUrl := "rtsp://cam.local/live",
    startTime := 0, timeoutId := none }

/-- C5 witness: after closing c1, session s1 no longer lists c1; the error
handler leaves the registry untouched. -/
theorem c5_close_detaches_witness :
    "c1" ∉ c5AfterInfo.connections ∧
    (wsErrorHandler c5WitnessState "c1").1.activeStreams = c5WitnessState.activeStreams :=
  ⟨(c5_close_detaches_error_does_not c5WitnessState "c1").1 "s1" c5AfterInfo (by decide),
   (c5_close_detaches_error_does_not c5WitnessState "c1").2⟩

/-- C6 scenario: one admitted connection, empty registry. -/
def c6State : ServerState :=
  { activeStreams := [], wsConnections := [("c1", { lastPing := 0 })],
    armedTimers := [], nextTimer := 0, fsFiles := [] }

/-- C6 counterexample: the claim says streamStarted is sent only after the
process handle acknowledges start, and that on immediate spawn failure the
requester receives an error but never a started notification.  With a valid
source address whose spawn fails immediately, the requester receives
streamStarted first and the error second. -/
theorem c6_started_sent_on_spawn_failure :
    (startRtspStream c6State (some "rtsp://cam.local/live") "c1" "s1" 0 false).2 =
      [Output.send "c1" (ServerMsg.streamStarted "s1"),
       Output.send "c1" (ServerMsg.error "启动转码失败")] := by
  decide

/-- C6 amended: for every valid start request the streamStarted notification
is sent to the requester immediately after validation and stream-id
generation, before the transcoding process is created (it precedes the spawn
effect); on immediate spawn failure the requester receives the
transcode-start-failure error after the already-sent streamStarted, and no
session entry is created (the state is unchanged). -/
theorem c6_started_precedes_spawn (s : ServerState) (url : Option String)
    (c sid : String) (now : Nat) (ci : ClientInfo)
    (hv : validateRtspUrl url = ValidationResult.ok)
    (hc : alookup s.wsConnections c = some ci) :
    (startRtspStream s url c sid now true).2 =
      [Output.send c (ServerMsg.streamStarted sid), Output.spawn sid (url.getD "")] ∧
    (startRtspStream s url c sid now false).2 =
      [Output.send c (ServerMsg.streamStarted sid),
       Output.send c (ServerMsg.error "启动转码失败")] ∧
    (startRtspStream s url c sid now false).1 = s := by
  have hsm : ∀ m : ServerMsg, sendMessage s c m = [Output.send c m] := by
    intro m
    unfold sendMessage
    rw [hc]
  unfold startRtspStream
  rw [hv]
  refine ⟨?_, ?_, ?_⟩ <;> simp [hsm, sendError]

/-- C6 witness: concrete instantiation of the amended message orders. -/
theorem c6_started_precedes_spawn_witness :
    (startRtspStream c6State (some "rtsp://cam.local/live") "c1" "s1" 3 true).2 =
      [Output.send "c1" (ServerMsg.streamStarted "s1"),
       Output.spawn "s1" "rtsp://cam.local/live"] ∧
    (startRtspStream c6State (some "rtsp://cam.local/live") "c1" "s1" 3 false).2 =
      [Output.send "c1" (ServerMsg.streamStarted "s1"),
       Output.send "c1" (ServerMsg.error "启动转码失败")] ∧
    (startRtspStream c6State (some "rtsp://cam.local/live") "c1" "s1" 3 false).1 = c6State :=
  c6_started_precedes_spawn c6State (some "rtsp://cam.local/live") "c1" "s1" 3
    { lastPing := 0 } (by decide) (by decide)

/-- C7: a start request whose source address fails validation is answered
with the specific validation reason as a typed error, the state (registry,
timers, filesystem, connections) is returned unchanged, and no spawn effect
is produced. -/
theorem c7_invalid_url_no_mutation (s : ServerState) (url : Option String)
    (c sid : String) (now : Nat) (ok : Bool) (e : String)
    (h : validateRtspUrl url = ValidationResult.bad e) :
    (startRtspStream s url c sid now ok).1 = s ∧
    (startRtspStream s url c sid now ok).2 = sendError s c e ∧
    ∀ x r, Output.spawn x r ∉ (startRtspStream s url c sid now ok).2 := by
  unfold startRtspStream
  rw [h]
  refine ⟨rfl, rfl, ?_⟩
  intro x r hmem
  unfold sendError sendMessage at hmem
  cases halo : alookup s.wsConnections c <;> rw [halo] at hmem <;> simp at hmem

/-- C7 witness scenario: one admitted connection. -/
def c7State : ServerState :=
  { activeStreams := [], wsConnections := [("c1", { lastPing := 0 })],
    armedTimers := [], nextTimer := 0, fsFiles := [] }

/-- C7 witness: the spec scenario — a start request for an http address is
rejected with the disallowed-scheme reason, delivered as a typed error, with
no state change. -/
theorem c7_invalid_url_no_mutation_witness :
    (startRtspStream c7State (some "http://evil/x") "c1" "s1" 0 true).1 = c7State ∧
    (startRtspStream c7State (some "http://evil/x") "c1" "s1" 0 true).2 =
      sendError c7State "c1" "无效的RTSP URL，必须以 rtsp:// 开头" ∧
    sendError c7State "c1" "无效的RTSP URL，必须以 rtsp:// 开头" =
      [Output.send "c1" (ServerMsg.error "无效的RTSP URL，必须以 rtsp:// 开头")] :=
  ⟨(c7_invalid_url_no_mutation c7State (some "http://evil/x") "c1" "s1" 0 true
      "无效的RTSP URL，必须以 rtsp:// 开头" (by decide)).1,
   (c7_invalid_url_no_mutation c7State (some "http://evil/x") "c1" "s1" 0 true
      "无效的RTSP URL，必须以 rtsp:// 开头" (by decide)).2.1,
   by decide⟩

/-- C8: in every reachable state the connection table never holds more than
maxConnections entries, and a connection attempt arriving while the table is
at the ceiling leaves the state unchanged and closes the socket at once with
the policy-violation status 1008 (no admission, no queueing). -/
theorem c8_connection_ceiling (cfg : Config) (s : ServerState) (h : Reachable cfg s) :
    s.wsConnections.length ≤ cfg.maxConnections ∧
    (s.wsConnections.length = cfg.maxConnections → ∀ cid now,
      step cfg s (Event.connect cid now) = (s, [Output.closeConn cid 1008])) := by
  have hlen : s.wsConnections.length ≤ cfg.maxConnections := by
    induction h with
    | init => exact Nat.zero_le _
    | next s0 e h0 ih => exact step_ws_le cfg s0 e ih
  refine ⟨hlen, ?_⟩
  intro heq cid now
  show handleConnection cfg.maxConnections s cid now = _
  unfold handleConnection
  rw [if_pos (Nat.le_of_eq heq.symm)]

/-- C8 witness configuration: ceiling zero, so the initial state is already
at the ceiling. -/
def c8Cfg : Config := { maxConnections := 0, heartbeatInterval := 30000 }

/-- C8 witness: at the ceiling, the connection attempt is rejected with 1008
and nothing is admitted. -/
theorem c8_connection_ceiling_witness :
    initState.wsConnections.length ≤ c8Cfg.maxConnections ∧
    step c8Cfg initState (Event.connect "c1" 0) = (initState, [Output.closeConn "c1" 1008]) :=
  ⟨(c8_connection_ceiling c8Cfg initState Reachable.init).1,
   (c8_connection_ceiling c8Cfg initState Reachable.init).2 (by decide) "c1" 0⟩

/-- C9: a stop request for a stream id that is not in the registry returns
the state completely unchanged (registry, viewer sets, timers, filesystem and
connection table are all identical) and produces only the
stream-missing typed error for the requester. -/
theorem c9_unknown_stop_no_mutation (s : ServerState) (sid c : String)
    (h : alookup s.activeStreams sid = none) :
    stopRtspStream s sid c = (s, sendError s c "流不存在") := by
  unfold stopRtspStream
  rw [h]

/-- C9 witness scenario: a registry with one other live stream and one
admitted connection. -/
def c9State : ServerState :=
  { activeStreams := [("s1",
      { hasCommand := true, connections := ["c1"], rtspUrl := "rtsp://cam.local/live",
        startTime := 0, timeoutId := none })],
    wsConnections := [("c1", { lastPing := 0 })],
    armedTimers := [], nextTimer := 0,
    fsFiles := [["public", "streams", "s1.m3u8"]] }

/-- C9 witness: stopping the unknown id s2 mutates nothing and delivers the
typed error to the requester. -/
theorem c9_unknown_stop_no_mutation_witness :
    stopRtspStream c9State "s2" "c1" = (c9State, sendError c9State "c1" "流不存在") ∧
    sendError c9State "c1" "流不存在" = [Output.send "c1" (ServerMsg.error "流不存在")] :=
  ⟨c9_unknown_stop_no_mutation c9State "s2" "c1" (by decide), by decide⟩

/-- C10 counterexample scenario: one admitted connection with activity
timestamp 5. -/
def c10State : ServerState :=
  { activeStreams := [], wsConnections := [("c1", { lastPing := 5 })],
    armedTimers := [], nextTimer := 0, fsFiles := [] }

/-- C10 counterexample: the claim says every inbound message of any kind
refreshes the connection's activity timestamp.  An inbound payload that is
not valid JSON (parsed = none: JSON.parse throws before the lastPing update
is reached) leaves the state — in particular the activity timestamp —
completely unchanged and only produces the processing-failure error. -/
theorem c10_malformed_message_no_refresh :
    handleRawMessage c10State "c1" none 100 "x" true =
      (c10State, [Output.send "c1" (ServerMsg.error "消息处理失败")]) ∧
    alookup c10State.wsConnections "c1" = some { lastPing := 5 } := by
  decide

/-- C10 amended: on each liveness sweep every connection whose time since
last activity exceeds twice the heartbeat interval is terminated and removed
from the table, and every other connection is sent the application-level
ping; and every inbound message that parses as JSON — of any type, including
the liveness reply — refreshes the connection's activity timestamp, while a
malformed payload does not. -/
theorem c10_sweep_and_refresh :
    (∀ (hb now : Nat) (s : ServerState) (cid : String) (ci : ClientInfo),
      (s.wsConnections.map Prod.fst).Nodup →
      alookup s.wsConnections cid = some ci →
      (isStale hb now ci = true →
        alookup (checkConnections hb s now).1.wsConnections cid = none ∧
        Output.terminate cid ∈ (checkConnections hb s now).2) ∧
      (isStale hb now ci = false →
        alookup (checkConnections hb s now).1.wsConnections cid = some ci ∧
        Output.send cid ServerMsg.ping ∈ (checkConnections hb s now).2)) ∧
    (∀ (s : ServerState) (cid : String) (data : ClientMsg) (now : Nat)
        (fid : String) (ok : Bool) (ci : ClientInfo),
      alookup s.wsConnections cid = some ci →
      alookup (handleRawMessage s cid (some data) now fid ok).1.wsConnections cid =
        some { lastPing := now }) := by
  constructor
  · intro hb now s cid ci hnd h
    constructor
    · intro hst
      constructor
      · exact alookup_filter_drop _ _ _ _ hnd h (by simp [hst])
      · exact List.mem_flatMap.mpr ⟨(cid, ci), alookup_pair_mem _ _ _ h, by simp [hst]⟩
    · intro hst
      constructor
      · exact alookup_filter_keep _ _ _ _ h (by simp [hst])
      · exact List.mem_flatMap.mpr ⟨(cid, ci), alookup_pair_mem _ _ _ h, by simp [hst]⟩
  · intro s cid data now fid ok ci h
    unfold handleRawMessage
    rw [h]
    dsimp only
    cases data with
    | startStream url =>
      rw [start_ws]
      exact alookup_aset_self _ _ _
    | stopStream sid2 =>
      rw [stop_ws]
      exact alookup_aset_self _ _ _
    | pong => exact alookup_aset_self _ _ _
    | other t => exact alookup_aset_self _ _ _

/-- C10 witness scenario: a stale connection c1 and a fresh connection c2
under the default thirty-second heartbeat. -/
def c10SweepState : ServerState :=
  { activeStreams := [],
    wsConnections := [("c1", { lastPing := 5 }), ("c2", { lastPing := 90000 })],
    armedTimers := [], nextTimer := 0, fsFiles := [] }

/-- C10 witness: the stale connection is terminated and removed, the fresh
one is pinged and kept, and a parsed pong refreshes the timestamp. -/
theorem c10_sweep_and_refresh_witness :
    (alookup (checkConnections 30000 c10SweepState 100000).1.wsConnections "c1" = none ∧
     Output.terminate "c1" ∈ (checkConnections 30000 c10SweepState 100000).2) ∧
    (alookup (checkConnections 30000 c10SweepState 100000).1.wsConnections "c2" =
        some { lastPing := 90000 } ∧
     Output.send "c2" ServerMsg.ping ∈ (checkConnections 30000 c10SweepState 100000).2) ∧
    alookup (handleRawMessage c10SweepState "c2" (some ClientMsg.pong) 123 "x"
        true).1.wsConnections "c2" = some { lastPing := 123 } :=
  ⟨(c10_sweep_and_refresh.1 30000 100000 c10SweepState "c1" { lastPing := 5 }
      (by decide) (by decide)).1 (by decide),
   (c10_sweep_and_refresh.1 30000 100000 c10SweepState "c2" { lastPing := 90000 }
      (by decide) (by decide)).2 (by decide),
   c10_sweep_and_refresh.2 c10SweepState "c2" ClientMsg.pong 123 "x" true
     { lastPing := 90000 } (by decide)⟩

end RTSPPlayer
